import Mathlib

/-!
Verification of the interaction dispatch, cooldown throttling, and lifecycle
logic of a Discord bot (source: `src/index.js`).  The JavaScript code is
shallowly embedded: the in-memory `Collection` maps become association lists,
`Date.now()` becomes an explicit `now : Nat` (milliseconds), and the fallible
external calls (Discord replies, command handlers, the ticket delegate) are
driven by a record of boolean outcomes so every control path of the handler
is a total Lean function of its inputs.
-/

set_option autoImplicit false

namespace Bot

/-- Association-list lookup keyed by strings, mirroring `Collection.get`. -/
def getEntry {α : Type} : List (String × α) → String → Option α
  | [], _ => none
  | (k', v') :: rest, k => if k' = k then some v' else getEntry rest k

/-- Association-list insert/replace, mirroring `Collection.set`. -/
def setEntry {α : Type} : List (String × α) → String → α → List (String × α)
  | [], k, v => [(k, v)]
  | (k', v') :: rest, k, v =>
      if k' = k then (k, v) :: rest else (k', v') :: setEntry rest k v

/-- Per-command map of caller id to the recorded invocation timestamp (ms),
mirroring the inner `Collection` stored in `client.cooldowns` (line 113). -/
abbrev Timestamps := List (String × Nat)

/-- The cooldown registry `client.cooldowns`: command name to `Timestamps`. -/
abbrev Cooldowns := List (String × Timestamps)

/-- Lines 112-114: lazily create the per-command timestamp map on first use. -/
def lazyInit (cds : Cooldowns) (cmdName : String) : Cooldowns :=
  if (getEntry cds cmdName).isSome then cds else setEntry cds cmdName []

/-- The per-command timestamp map read on line 117 (empty when absent). -/
def tsOf (cds : Cooldowns) (cmdName : String) : Timestamps :=
  (getEntry cds cmdName).getD []

/-- The recorded timestamp for a (command, caller) pair, if present. -/
def getUser (cds : Cooldowns) (cmdName uid : String) : Option Nat :=
  getEntry (tsOf cds cmdName) uid

/-- Outcome of the cooldown check (lines 120-133). -/
inductive CooldownOutcome where
  | allowed : CooldownOutcome
  | throttled (remainingMs : Nat) : CooldownOutcome
deriving DecidableEq, Repr

/-- Result of running lines 110-133: outcome, updated registry, and the
`setTimeout` delay scheduled for the entry's removal (line 133), if any. -/
structure CooldownStep where
  outcome : CooldownOutcome
  cooldowns : Cooldowns
  scheduledDeleteMs : Option Nat
deriving DecidableEq, Repr

/-- Lines 110-133 of the `InteractionCreate` handler.  The stored value is the
invocation timestamp; the expiry is recomputed as `stored + cooldownMs`
(line 121).  On the throttled branch nothing is written; otherwise the
current time is recorded and a deletion is scheduled after `cooldownMs`. -/
def cooldownCheck (cooldowns : Cooldowns) (cmdName uid : String)
    (cooldownMs now : Nat) : CooldownStep :=
  let cds := lazyInit cooldowns cmdName
  let timestamps := tsOf cds cmdName
  match getEntry timestamps uid with
  | some t0 =>
      let expirationTime := t0 + cooldownMs
      if now < expirationTime then
        { outcome := .throttled (expirationTime - now)
          cooldowns := cds
          scheduledDeleteMs := none }
      else
        { outcome := .allowed
          cooldowns := setEntry cds cmdName (setEntry timestamps uid now)
          scheduledDeleteMs := some cooldownMs }
  | none =>
      { outcome := .allowed
        cooldowns := setEntry cds cmdName (setEntry timestamps uid now)
        scheduledDeleteMs := some cooldownMs }

/-- Line 118: `(command.cooldown || 3)`.  A missing value, and also an
explicit `0` (falsy in JavaScript), default to 3 seconds. -/
def effectiveCooldownSec (c : Option Nat) : Nat :=
  match c with
  | none => 3
  | some n => if n = 0 then 3 else n

/-- Line 118 continued: the cooldown window in milliseconds. -/
def effectiveCooldownMs (c : Option Nat) : Nat :=
  effectiveCooldownSec c * 1000

/-- A registered command: `data.name` plus the optional `cooldown` field in
seconds.  The execute contract is external; its success or failure is an
input of the dispatch model (`Env.executeOk`). -/
structure Command where
  name : String
  cooldown : Option Nat
deriving DecidableEq, Repr

/-- Line 103, `client.commands.get(interaction.commandName)`: the registry is
keyed by the command's name. -/
def findCommand : List Command → String → Option Command
  | [], _ => none
  | c :: rest, n => if c.name = n then some c else findCommand rest n

/-- An inbound interaction event, as classified on lines 102 and 140. -/
inductive Interaction where
  | chatInput (commandName uid userTag : String) : Interaction
  | button (customId : String) : Interaction
  | otherKind : Interaction
deriving DecidableEq, Repr

/-- Outcomes of the external calls the handler makes, and the interaction's
reply state observed in the catch block (lines 156-164).  `true` means the
returned promise resolves; `false` means it rejects (or the call throws). -/
structure Env where
  throttleReplyOk : Bool
  executeOk : Bool
  ticketOk : Bool
  errorNoticeOk : Bool
  replied : Bool
  deferred : Bool
deriving DecidableEq, Repr

/-- An ephemeral response attempted towards the caller. -/
inductive UserReply where
  | throttleWait (remainingMs : Nat) : UserReply
  | errorReply : UserReply
  | errorFollowUp : UserReply
deriving DecidableEq, Repr

/-- Log lines emitted by the handler, by call site. -/
inductive LogLine where
  | warnCommandNotFound (name : String) : LogLine
  | infoCommandExecuted (name userTag : String) : LogLine
  | errorHandlingInteraction : LogLine
  | errorFollowUpDeliveryFailed : LogLine
  | errorReplyDeliveryFailed : LogLine
deriving DecidableEq, Repr

/-- Everything one run of the `InteractionCreate` handler does. -/
structure DispatchResult where
  cooldowns : Cooldowns
  scheduledDelete : Option (String × String × Nat)
  executed : List String
  ticketCalls : Nat
  userReplies : List UserReply
  log : List LogLine
  escapedRejection : Bool
  processExit : Option Nat
deriving DecidableEq, Repr

/-- The catch block, lines 147-165: log the fault, then best-effort notify the
caller — a follow-up if the interaction was already replied to or deferred,
a fresh ephemeral reply otherwise; a delivery failure is itself caught and
logged via `.catch` and never re-thrown. -/
def catchBlock (e : Env) (r : DispatchResult) : DispatchResult :=
  let r := { r with log := r.log ++ [LogLine.errorHandlingInteraction] }
  if e.replied || e.deferred then
    let r := { r with userReplies := r.userReplies ++ [UserReply.errorFollowUp] }
    if e.errorNoticeOk then r
    else { r with log := r.log ++ [LogLine.errorFollowUpDeliveryFailed] }
  else
    let r := { r with userReplies := r.userReplies ++ [UserReply.errorReply] }
    if e.errorNoticeOk then r
    else { r with log := r.log ++ [LogLine.errorReplyDeliveryFailed] }

/-- The `InteractionCreate` handler, lines 99-166.  Awaited calls that reject
(`command.execute`, `handleTicketButton`) are caught by the surrounding
try/catch and fall into `catchBlock`.  The throttled-path reply (line 125)
is *returned*, not awaited, so the try/catch never observes its rejection:
a rejecting throttle reply makes the handler's own promise reject, which
surfaces at the process-level `unhandledRejection` handler
(`escapedRejection := true`). -/
def handleInteraction (commands : List Command) (cooldowns : Cooldowns)
    (now : Nat) (i : Interaction) (e : Env) : DispatchResult :=
  let base : DispatchResult :=
    { cooldowns := cooldowns, scheduledDelete := none, executed := [],
      ticketCalls := 0, userReplies := [], log := [],
      escapedRejection := false, processExit := none }
  match i with
  | .chatInput name uid utag =>
      match findCommand commands name with
      | none => { base with log := [LogLine.warnCommandNotFound name] }
      | some cmd =>
          let step := cooldownCheck cooldowns cmd.name uid
            (effectiveCooldownMs cmd.cooldown) now
          match step.outcome with
          | .throttled remaining =>
              { base with
                  cooldowns := step.cooldowns
                  userReplies := [UserReply.throttleWait remaining]
                  escapedRejection := !e.throttleReplyOk }
          | .allowed =>
              let r := { base with
                  cooldowns := step.cooldowns
                  scheduledDelete :=
                    step.scheduledDeleteMs.map (fun d => (cmd.name, uid, d))
                  executed := [cmd.name] }
              if e.executeOk then
                { r with log := [LogLine.infoCommandExecuted name utag] }
              else
                catchBlock e r
  | .button customId =>
      if customId.startsWith "ticket_" then
        let r := { base with ticketCalls := 1 }
        if e.ticketOk then r else catchBlock e r
      else base
  | .otherKind => base

end Bot

namespace Bot

/-! ### Lifecycle: graceful shutdown (lines 57-82) -/

/-- Log lines emitted by the lifecycle code. -/
inductive LifeLog where
  | infoShutdownSigint : LifeLog
  | infoShutdownSigterm : LifeLog
  | infoShuttingDownGracefully : LifeLog
  | infoClientDestroyed : LifeLog
deriving DecidableEq, Repr

/-- Process-level state touched by the shutdown path: whether the gateway
client reports ready (`client.isReady()`), how many times `client.destroy()`
has been called, every `process.exit` scheduled via `setTimeout`
(delay ms, status), and the log. -/
structure ProcState where
  clientReady : Bool
  destroyCalls : Nat
  scheduledExits : List (Nat × Nat)
  log : List LifeLog
deriving DecidableEq, Repr

/-- Function `gracefulShutdown` (lines 68-82): log, destroy the client if it is ready
(destroying makes `isReady()` false afterwards), then schedule a status-0
exit after 1500 ms.  There is no in-progress guard. -/
def gracefulShutdown (s : ProcState) : ProcState :=
  let s := { s with log := s.log ++ [LifeLog.infoShuttingDownGracefully] }
  let s :=
    if s.clientReady then
      { s with clientReady := false, destroyCalls := s.destroyCalls + 1,
               log := s.log ++ [LifeLog.infoClientDestroyed] }
    else s
  { s with scheduledExits := s.scheduledExits ++ [(1500, 0)] }

/-- The SIGINT handler (lines 58-61). -/
def onSigint (s : ProcState) : ProcState :=
  gracefulShutdown { s with log := s.log ++ [LifeLog.infoShutdownSigint] }

/-- The SIGTERM handler (lines 63-66). -/
def onSigterm (s : ProcState) : ProcState :=
  gracefulShutdown { s with log := s.log ++ [LifeLog.infoShutdownSigterm] }

/-! ### Process-level fault handlers (lines 40-55) -/

/-- What a process-level fault handler does: how many log lines it writes,
and the delayed `process.exit` it schedules, if any. -/
structure FaultResponse where
  logLines : Nat
  exitDelayMs : Option Nat
  exitStatus : Option Nat
deriving DecidableEq, Repr

/-- Lines 40-43: an unhandled promise rejection is logged (logger + console)
and nothing else happens — no exit is scheduled, the process continues. -/
def onUnhandledRejection : FaultResponse :=
  { logLines := 2, exitDelayMs := none, exitStatus := none }

/-- Lines 45-55: an uncaught exception is logged in full and a status-1 exit
is scheduled after a fixed 1000 ms flush delay. -/
def onUncaughtException : FaultResponse :=
  { logLines := 3, exitDelayMs := some 1000, exitStatus := some 1 }

/-! ### Startup validation (lines 13-23, 180-196) -/

/-- Line 14: the required environment variables. -/
def requiredEnvVars : List String := ["DISCORD_TOKEN", "CLIENT_ID"]

/-- JavaScript truthiness of `process.env[v]`: an unset variable is
`undefined` (falsy) and the empty string is falsy too. -/
def envTruthy : Option String → Bool
  | none => false
  | some s => !(s = "")

/-- Line 15: the required variables that are missing (falsy). -/
def missingEnvVars (env : String → Option String) : List String :=
  requiredEnvVars.filter (fun v => !envTruthy (env v))

/-- Observable outcome of `init` (lines 180-196): the per-variable diagnostic
lines printed by `checkRequiredEnvVars`, the exit status if the process
exits, and whether `client.login` was attempted. -/
structure StartupResult where
  missingDiagnostics : List String
  exitStatus : Option Nat
  loginAttempted : Bool
deriving DecidableEq, Repr

/-- Function `checkRequiredEnvVars` (lines 13-23) followed by `client.login`
(line 190) inside `init`'s try/catch: when any required variable is missing,
each missing name is printed on its own diagnostic line and the process
exits with status 1 before login; otherwise login is attempted, and a login
failure is caught and also exits with status 1. -/
def init (env : String → Option String) (loginOk : Bool) : StartupResult :=
  let missing := missingEnvVars env
  if missing.length > 0 then
    { missingDiagnostics := missing, exitStatus := some 1,
      loginAttempted := false }
  else if loginOk then
    { missingDiagnostics := [], exitStatus := none, loginAttempted := true }
  else
    { missingDiagnostics := [], exitStatus := some 1, loginAttempted := true }

end Bot

namespace Bot

theorem getEntry_setEntry_self {α : Type} (m : List (String × α)) (k : String) (v : α) :
    getEntry (setEntry m k v) k = some v := by
  induction m with
  | nil => simp [setEntry, getEntry]
  | cons hd tl ih =>
      obtain ⟨k', v'⟩ := hd
      by_cases h : k' = k
      · simp [setEntry, getEntry, h]
      · simp [setEntry, getEntry, h, ih]

theorem getEntry_setEntry_ne {α : Type} (m : List (String × α)) (k k' : String) (v : α)
    (h : k' ≠ k) : getEntry (setEntry m k v) k' = getEntry m k' := by
  have hk : k ≠ k' := Ne.symm h
  induction m with
  | nil => simp [setEntry, getEntry, hk]
  | cons hd tl ih =>
      obtain ⟨k0, v0⟩ := hd
      by_cases h0 : k0 = k
      · subst h0
        simp [setEntry, getEntry, hk]
      · simp only [setEntry, if_neg h0, getEntry]
        by_cases h1 : k0 = k'
        · simp [h1]
        · simp [h1, ih]

theorem getEntry_lazyInit_self (cds : Cooldowns) (c : String) :
    getEntry (lazyInit cds c) c = some (tsOf cds c) := by
  unfold lazyInit tsOf
  cases h : getEntry cds c with
  | none => simp [h, getEntry_setEntry_self]
  | some ts => simp [h]

theorem getEntry_lazyInit_ne (cds : Cooldowns) (c c' : String) (h : c' ≠ c) :
    getEntry (lazyInit cds c) c' = getEntry cds c' := by
  unfold lazyInit
  cases hc : getEntry cds c with
  | none => simp [getEntry_setEntry_ne _ _ _ _ h]
  | some ts => simp

/-- Characterization of `cooldownCheck` in terms of `getUser`. -/
theorem cooldownCheck_eq (cds : Cooldowns) (c u : String) (m t : Nat) :
    cooldownCheck cds c u m t =
      match getUser cds c u with
      | some t0 =>
          if t < t0 + m then
            { outcome := .throttled (t0 + m - t)
              cooldowns := lazyInit cds c
              scheduledDeleteMs := none }
          else
            { outcome := .allowed
              cooldowns := setEntry (lazyInit cds c) c (setEntry (tsOf cds c) u t)
              scheduledDeleteMs := some m }
      | none =>
          { outcome := .allowed
            cooldowns := setEntry (lazyInit cds c) c (setEntry (tsOf cds c) u t)
            scheduledDeleteMs := some m } := by
  have hts : tsOf (lazyInit cds c) c = tsOf cds c := by
    unfold tsOf
    rw [getEntry_lazyInit_self]
    rfl
  simp only [cooldownCheck, getUser, hts]

theorem findCommand_name (cmds : List Command) (n : String) (cmd : Command)
    (h : findCommand cmds n = some cmd) : cmd.name = n := by
  induction cmds with
  | nil => simp [findCommand] at h
  | cons c rest ih =>
      by_cases hc : c.name = n
      · simp only [findCommand, if_pos hc] at h
        cases h
        exact hc
      · simp only [findCommand, if_neg hc] at h
        exact ih h

theorem getUser_lazyInit (cds : Cooldowns) (c c' u' : String) :
    getUser (lazyInit cds c) c' u' = getUser cds c' u' := by
  by_cases h : c' = c
  · subst h
    unfold getUser tsOf
    rw [getEntry_lazyInit_self]
    rfl
  · unfold getUser tsOf
    rw [getEntry_lazyInit_ne _ _ _ h]

theorem getUser_record_self (cds : Cooldowns) (c u : String) (t : Nat) :
    getUser (setEntry (lazyInit cds c) c (setEntry (tsOf cds c) u t)) c u = some t := by
  unfold getUser tsOf
  rw [getEntry_setEntry_self]
  simp [getEntry_setEntry_self]

theorem getUser_record_ne (cds : Cooldowns) (c u : String) (t : Nat) (c' u' : String)
    (h : ¬(c' = c ∧ u' = u)) :
    getUser (setEntry (lazyInit cds c) c (setEntry (tsOf cds c) u t)) c' u'
      = getUser cds c' u' := by
  by_cases hc : c' = c
  · subst hc
    have hu : u' ≠ u := fun hu => h ⟨rfl, hu⟩
    unfold getUser tsOf
    rw [getEntry_setEntry_self]
    simp [getEntry_setEntry_ne _ _ _ _ hu]
  · unfold getUser tsOf
    rw [getEntry_setEntry_ne _ _ _ _ hc, getEntry_lazyInit_ne _ _ _ hc]

theorem getUser_cooldownCheck_ne (cds : Cooldowns) (c u : String) (m t : Nat)
    (c' u' : String) (h : ¬(c' = c ∧ u' = u)) :
    getUser (cooldownCheck cds c u m t).cooldowns c' u' = getUser cds c' u' := by
  rw [cooldownCheck_eq]
  cases hg : getUser cds c u with
  | none => simp [getUser_record_ne _ _ _ _ _ _ h]
  | some t0 =>
      by_cases ht : t < t0 + m
      · simp [ht, getUser_lazyInit]
      · simp [ht, getUser_record_ne _ _ _ _ _ _ h]

theorem getUser_cooldownCheck_allowed (cds : Cooldowns) (c u : String) (m t : Nat)
    (h : (cooldownCheck cds c u m t).outcome = CooldownOutcome.allowed) :
    getUser (cooldownCheck cds c u m t).cooldowns c u = some t := by
  rw [cooldownCheck_eq] at h ⊢
  cases hg : getUser cds c u with
  | none => simp [getUser_record_self]
  | some t0 =>
      by_cases ht : t < t0 + m
      · rw [hg] at h
        simp [ht] at h
      · simp [ht, getUser_record_self]

theorem cooldownCheck_outcome_congr (cds cds' : Cooldowns) (c u : String) (m t : Nat)
    (h : getUser cds c u = getUser cds' c u) :
    (cooldownCheck cds c u m t).outcome = (cooldownCheck cds' c u m t).outcome := by
  rw [cooldownCheck_eq, cooldownCheck_eq, h]
  cases getUser cds' c u with
  | none => rfl
  | some t0 =>
      by_cases ht : t < t0 + m
      · simp [ht]
      · simp [ht]

theorem catchBlock_userReplies (e : Env) (r : DispatchResult) :
    (catchBlock e r).userReplies = r.userReplies ++
      [if (e.replied || e.deferred) then UserReply.errorFollowUp else UserReply.errorReply] := by
  unfold catchBlock
  by_cases hb : (e.replied || e.deferred) = true
  · by_cases hn : e.errorNoticeOk = true <;> simp [hb, hn]
  · by_cases hn : e.errorNoticeOk = true <;> simp [hb, hn]

theorem catchBlock_log (e : Env) (r : DispatchResult) :
    (catchBlock e r).log = r.log ++ [LogLine.errorHandlingInteraction] ++
      (if e.errorNoticeOk then []
       else [if (e.replied || e.deferred) then LogLine.errorFollowUpDeliveryFailed
             else LogLine.errorReplyDeliveryFailed]) := by
  unfold catchBlock
  by_cases hb : (e.replied || e.deferred) = true
  · by_cases hn : e.errorNoticeOk = true <;> simp [hb, hn]
  · by_cases hn : e.errorNoticeOk = true <;> simp [hb, hn]

theorem catchBlock_frame (e : Env) (r : DispatchResult) :
    (catchBlock e r).cooldowns = r.cooldowns
    ∧ (catchBlock e r).scheduledDelete = r.scheduledDelete
    ∧ (catchBlock e r).executed = r.executed
    ∧ (catchBlock e r).ticketCalls = r.ticketCalls
    ∧ (catchBlock e r).escapedRejection = r.escapedRejection
    ∧ (catchBlock e r).processExit = r.processExit := by
  unfold catchBlock
  by_cases hb : (e.replied || e.deferred) = true
  · by_cases hn : e.errorNoticeOk = true <;> simp [hb, hn]
  · by_cases hn : e.errorNoticeOk = true <;> simp [hb, hn]

theorem handleInteraction_unknown (commands : List Command) (cds : Cooldowns)
    (now : Nat) (name uid utag : String) (e : Env)
    (h : findCommand commands name = none) :
    handleInteraction commands cds now (.chatInput name uid utag) e
      = { cooldowns := cds, scheduledDelete := none, executed := [],
          ticketCalls := 0, userReplies := [],
          log := [LogLine.warnCommandNotFound name],
          escapedRejection := false, processExit := none } := by
  simp [handleInteraction, h]

theorem handleInteraction_throttled (commands : List Command) (cds : Cooldowns)
    (now : Nat) (name uid utag : String) (e : Env) (cmd : Command) (rem : Nat)
    (hfind : findCommand commands name = some cmd)
    (hout : (cooldownCheck cds cmd.name uid (effectiveCooldownMs cmd.cooldown) now).outcome
      = CooldownOutcome.throttled rem) :
    handleInteraction commands cds now (.chatInput name uid utag) e
      = { cooldowns := (cooldownCheck cds cmd.name uid
            (effectiveCooldownMs cmd.cooldown) now).cooldowns,
          scheduledDelete := none, executed := [], ticketCalls := 0,
          userReplies := [UserReply.throttleWait rem], log := [],
          escapedRejection := !e.throttleReplyOk, processExit := none } := by
  simp [handleInteraction, hfind, hout]

theorem handleInteraction_allowed_ok (commands : List Command) (cds : Cooldowns)
    (now : Nat) (name uid utag : String) (e : Env) (cmd : Command)
    (hfind : findCommand commands name = some cmd)
    (hout : (cooldownCheck cds cmd.name uid (effectiveCooldownMs cmd.cooldown) now).outcome
      = CooldownOutcome.allowed)
    (hex : e.executeOk = true) :
    handleInteraction commands cds now (.chatInput name uid utag) e
      = { cooldowns := (cooldownCheck cds cmd.name uid
            (effectiveCooldownMs cmd.cooldown) now).cooldowns,
          scheduledDelete := (cooldownCheck cds cmd.name uid
            (effectiveCooldownMs cmd.cooldown) now).scheduledDeleteMs.map
              (fun d => (cmd.name, uid, d)),
          executed := [cmd.name], ticketCalls := 0, userReplies := [],
          log := [LogLine.infoCommandExecuted name utag],
          escapedRejection := false, processExit := none } := by
  simp [handleInteraction, hfind, hout, hex]

theorem handleInteraction_allowed_fault (commands : List Command) (cds : Cooldowns)
    (now : Nat) (name uid utag : String) (e : Env) (cmd : Command)
    (hfind : findCommand commands name = some cmd)
    (hout : (cooldownCheck cds cmd.name uid (effectiveCooldownMs cmd.cooldown) now).outcome
      = CooldownOutcome.allowed)
    (hex : e.executeOk = false) :
    handleInteraction commands cds now (.chatInput name uid utag) e
      = catchBlock e
          { cooldowns := (cooldownCheck cds cmd.name uid
              (effectiveCooldownMs cmd.cooldown) now).cooldowns,
            scheduledDelete := (cooldownCheck cds cmd.name uid
              (effectiveCooldownMs cmd.cooldown) now).scheduledDeleteMs.map
                (fun d => (cmd.name, uid, d)),
            executed := [cmd.name], ticketCalls := 0, userReplies := [],
            log := [], escapedRejection := false, processExit := none } := by
  simp [handleInteraction, hfind, hout, hex]

theorem handleInteraction_chatInput_cooldowns (commands : List Command)
    (cds : Cooldowns) (now : Nat) (name uid utag : String) (e : Env) :
    (handleInteraction commands cds now (.chatInput name uid utag) e).cooldowns
      = match findCommand commands name with
        | none => cds
        | some cmd => (cooldownCheck cds cmd.name uid
            (effectiveCooldownMs cmd.cooldown) now).cooldowns := by
  cases hfind : findCommand commands name with
  | none => rw [handleInteraction_unknown commands cds now name uid utag e hfind]
  | some cmd =>
      cases hout : (cooldownCheck cds cmd.name uid
          (effectiveCooldownMs cmd.cooldown) now).outcome with
      | throttled rem =>
          rw [handleInteraction_throttled commands cds now name uid utag e cmd rem hfind hout]
      | allowed =>
          cases hex : e.executeOk with
          | true =>
              rw [handleInteraction_allowed_ok commands cds now name uid utag e cmd hfind hout hex]
          | false =>
              rw [handleInteraction_allowed_fault commands cds now name uid utag e cmd hfind hout hex]
              exact (catchBlock_frame e _).1

/-- Claim C1: for every command name, caller, and time `now`: with no entry
for the pair, or a stored expiry at or before `now`, the check records a new
entry whose expiry is `now` plus the command's cooldown (defaulting to 3
seconds) and is Allowed; with an entry whose expiry is strictly after `now`
it is Throttled with remaining time `expiry − now`, which is positive and at
most the cooldown window for a repeat invocation, and the stored entry is
not reset on that path. -/
theorem C1_cooldown_check_contract (cds : Cooldowns) (C U : String)
    (cd : Option Nat) (now : Nat) :
    effectiveCooldownMs none = 3000
    ∧ ((getUser cds C U = none
          ∨ ∃ t0, getUser cds C U = some t0 ∧ t0 + effectiveCooldownMs cd ≤ now) →
        (cooldownCheck cds C U (effectiveCooldownMs cd) now).outcome
          = CooldownOutcome.allowed
        ∧ getUser (cooldownCheck cds C U (effectiveCooldownMs cd) now).cooldowns C U
          = some now)
    ∧ (∀ t0, getUser cds C U = some t0 → now < t0 + effectiveCooldownMs cd →
        (cooldownCheck cds C U (effectiveCooldownMs cd) now).outcome
          = CooldownOutcome.throttled (t0 + effectiveCooldownMs cd - now)
        ∧ getUser (cooldownCheck cds C U (effectiveCooldownMs cd) now).cooldowns C U
          = some t0
        ∧ 0 < t0 + effectiveCooldownMs cd - now
        ∧ (t0 ≤ now →
            t0 + effectiveCooldownMs cd - now ≤ effectiveCooldownMs cd)) := by
  refine ⟨rfl, ?_, ?_⟩
  · intro h
    rw [cooldownCheck_eq]
    rcases h with hg | ⟨t0, hg, hle⟩
    · simp [hg, getUser_record_self]
    · have ht : ¬ now < t0 + effectiveCooldownMs cd := Nat.not_lt.mpr hle
      simp [hg, ht, getUser_record_self]
  · intro t0 hg hlt
    rw [cooldownCheck_eq]
    refine ⟨by simp [hg, hlt], ?_, ?_, ?_⟩
    · simp only [hg, if_pos hlt]
      rw [getUser_lazyInit]
      exact hg
    · omega
    · intro hle
      omega

/-- Witness for C1 at concrete inputs: an empty registry gives Allowed and
records the caller, and a repeat call 1000 ms into a default 3000 ms window
is Throttled with 2000 ms remaining. -/
theorem C1_cooldown_check_contract_witness :
    (cooldownCheck [] "ping" "u1" (effectiveCooldownMs none) 0).outcome
      = CooldownOutcome.allowed
    ∧ (cooldownCheck [("ping", [("u1", 0)])] "ping" "u1"
        (effectiveCooldownMs none) 1000).outcome
      = CooldownOutcome.throttled 2000 := by
  constructor
  · exact ((C1_cooldown_check_contract [] "ping" "u1" none 0).2.1
      (Or.inl (by decide))).1
  · have h := ((C1_cooldown_check_contract [("ping", [("u1", 0)])] "ping" "u1"
      none 1000).2.2) 0 (by decide) (by decide)
    simpa using h.1

/-- Claim C2: when the cooldown check yields Throttled, the command's execute
contract is not invoked — the dispatch sends only the ephemeral wait-time
reply and terminates routing, with no handler side effect. -/
theorem C2_throttled_never_executes (commands : List Command) (cds : Cooldowns)
    (now : Nat) (name uid utag : String) (e : Env) (cmd : Command) (rem : Nat)
    (hfind : findCommand commands name = some cmd)
    (hout : (cooldownCheck cds cmd.name uid (effectiveCooldownMs cmd.cooldown) now).outcome
      = CooldownOutcome.throttled rem) :
    (handleInteraction commands cds now (.chatInput name uid utag) e).executed = []
    ∧ (handleInteraction commands cds now (.chatInput name uid utag) e).userReplies
        = [UserReply.throttleWait rem]
    ∧ (handleInteraction commands cds now (.chatInput name uid utag) e).log = []
    ∧ (handleInteraction commands cds now (.chatInput name uid utag) e).scheduledDelete
        = none := by
  rw [handleInteraction_throttled commands cds now name uid utag e cmd rem hfind hout]
  exact ⟨rfl, rfl, rfl, rfl⟩

/-- Witness for C2: a caller on cooldown gets no execution. -/
theorem C2_throttled_never_executes_witness :
    (handleInteraction [⟨"ping", none⟩] [("ping", [("u1", 0)])] 1000
        (.chatInput "ping" "u1" "tag")
        ⟨true, true, true, true, false, false⟩).executed = []
    ∧ (handleInteraction [⟨"ping", none⟩] [("ping", [("u1", 0)])] 1000
        (.chatInput "ping" "u1" "tag")
        ⟨true, true, true, true, false, false⟩).userReplies
      = [UserReply.throttleWait 2000] := by
  have h := C2_throttled_never_executes [⟨"ping", none⟩] [("ping", [("u1", 0)])]
    1000 "ping" "u1" "tag" ⟨true, true, true, true, false, false⟩
    ⟨"ping", none⟩ 2000 (by decide) (by decide)
  exact ⟨h.1, h.2.1⟩

/-- Claim C3: when the execute contract faults, the dispatch produces exactly
one ephemeral error notification — a follow-up when the interaction was
already replied to or deferred, a fresh reply otherwise — the process is not
terminated, no rejection escapes, and a failed delivery of that notification
is itself caught and logged. -/
theorem C3_fault_single_notification (commands : List Command) (cds : Cooldowns)
    (now : Nat) (name uid utag : String) (e : Env) (cmd : Command)
    (hfind : findCommand commands name = some cmd)
    (hout : (cooldownCheck cds cmd.name uid (effectiveCooldownMs cmd.cooldown) now).outcome
      = CooldownOutcome.allowed)
    (hex : e.executeOk = false) :
    (handleInteraction commands cds now (.chatInput name uid utag) e).userReplies
      = [if (e.replied || e.deferred) then UserReply.errorFollowUp
         else UserReply.errorReply]
    ∧ (handleInteraction commands cds now (.chatInput name uid utag) e).processExit
      = none
    ∧ (handleInteraction commands cds now (.chatInput name uid utag) e).escapedRejection
      = false
    ∧ (handleInteraction commands cds now (.chatInput name uid utag) e).log
      = LogLine.errorHandlingInteraction ::
        (if e.errorNoticeOk then []
         else [if (e.replied || e.deferred) then LogLine.errorFollowUpDeliveryFailed
               else LogLine.errorReplyDeliveryFailed]) := by
  rw [handleInteraction_allowed_fault commands cds now name uid utag e cmd hfind hout hex]
  refine ⟨?_, ?_, ?_, ?_⟩
  · rw [catchBlock_userReplies]
    simp
  · exact (catchBlock_frame e _).2.2.2.2.2
  · exact (catchBlock_frame e _).2.2.2.2.1
  · rw [catchBlock_log]
    simp

/-- Witness for C3: a faulting command with a fresh interaction yields exactly
one fresh ephemeral error reply and no process exit. -/
theorem C3_fault_single_notification_witness :
    (handleInteraction [⟨"ping", none⟩] [] 0 (.chatInput "ping" "u1" "tag")
        ⟨true, false, true, true, false, false⟩).userReplies
      = [UserReply.errorReply]
    ∧ (handleInteraction [⟨"ping", none⟩] [] 0 (.chatInput "ping" "u1" "tag")
        ⟨true, false, true, true, false, false⟩).processExit = none
    ∧ (handleInteraction [⟨"ping", none⟩] [] 0 (.chatInput "ping" "u1" "tag")
        ⟨true, false, true, true, false, false⟩).escapedRejection = false := by
  have h := C3_fault_single_notification [⟨"ping", none⟩] [] 0 "ping" "u1" "tag"
    ⟨true, false, true, true, false, false⟩ ⟨"ping", none⟩
    (by decide) (by decide) rfl
  exact ⟨by simpa using h.1, h.2.1, h.2.2.1⟩

/-- Claim C9: a ChatInputCommand whose name is absent from the command
registry leads to a logged warning and nothing else: no reply, no cooldown
change, no execution, no exit. -/
theorem C9_unknown_command_no_side_effects (commands : List Command)
    (cds : Cooldowns) (now : Nat) (name uid utag : String) (e : Env)
    (h : findCommand commands name = none) :
    handleInteraction commands cds now (.chatInput name uid utag) e
      = { cooldowns := cds, scheduledDelete := none, executed := [],
          ticketCalls := 0, userReplies := [],
          log := [LogLine.warnCommandNotFound name],
          escapedRejection := false, processExit := none } :=
  handleInteraction_unknown commands cds now name uid utag e h

/-- Witness for C9 with an empty registry. -/
theorem C9_unknown_command_no_side_effects_witness :
    handleInteraction [] [("ping", [("u1", 0)])] 5 (.chatInput "nope" "u" "t")
        ⟨true, true, true, true, false, false⟩
      = { cooldowns := [("ping", [("u1", 0)])], scheduledDelete := none,
          executed := [], ticketCalls := 0, userReplies := [],
          log := [LogLine.warnCommandNotFound "nope"],
          escapedRejection := false, processExit := none } :=
  C9_unknown_command_no_side_effects [] [("ping", [("u1", 0)])] 5 "nope" "u" "t"
    ⟨true, true, true, true, false, false⟩ rfl

/-- Claim C4 counterexample: from a ready client with no teardown yet done,
two termination signals in quick succession schedule the status-0 exit
twice — `gracefulShutdown` has no in-progress guard, so the second trigger
is not a no-op and the teardown sequence is not performed exactly once. -/
theorem C4_counterexample :
    (onSigint (onSigint ⟨true, 0, [], []⟩)).scheduledExits = [(1500, 0), (1500, 0)]
    ∧ onSigint (onSigint ⟨true, 0, [], []⟩) ≠ onSigint ⟨true, 0, [], []⟩ := by
  decide

/-- Claim C4 amended: across two termination signals in quick succession the
client-destroy step runs exactly once, because destroying the client clears
its readiness and the destroy call is guarded by `isReady()`; but the rest
of the teardown is repeated — each signal logs again and schedules its own
status-0 exit, so the second trigger is not a no-op. -/
theorem C4_shutdown_destroy_once (s : ProcState) (hr : s.clientReady = true)
    (hd : s.destroyCalls = 0) (hs : s.scheduledExits = []) :
    (onSigint s).destroyCalls = 1
    ∧ (onSigint s).scheduledExits = [(1500, 0)]
    ∧ (onSigterm (onSigint s)).destroyCalls = 1
    ∧ (onSigterm (onSigint s)).scheduledExits = [(1500, 0), (1500, 0)] := by
  simp [onSigint, onSigterm, gracefulShutdown, hr, hd, hs]

/-- Witness for the amended C4 at the initial ready state. -/
theorem C4_shutdown_destroy_once_witness :
    (onSigint ⟨true, 0, [], []⟩).destroyCalls = 1
    ∧ (onSigterm (onSigint ⟨true, 0, [], []⟩)).destroyCalls = 1
    ∧ (onSigterm (onSigint ⟨true, 0, [], []⟩)).scheduledExits
      = [(1500, 0), (1500, 0)] := by
  have h := C4_shutdown_destroy_once ⟨true, 0, [], []⟩ rfl rfl rfl
  exact ⟨h.1, h.2.2.1, h.2.2.2⟩

/-- Claim C5: startup validation prints one diagnostic line per missing
required environment variable — exactly the missing ones, by name — and when
any is missing it exits with status 1 without attempting to connect; with
none missing it proceeds to login. -/
theorem C5_env_validation (env : String → Option String) (loginOk : Bool) :
    (init env loginOk).missingDiagnostics = missingEnvVars env
    ∧ (missingEnvVars env ≠ [] →
        (init env loginOk).exitStatus = some 1
        ∧ (init env loginOk).loginAttempted = false)
    ∧ (missingEnvVars env = [] → (init env loginOk).loginAttempted = true) := by
  by_cases h : (missingEnvVars env).length > 0
  · have hne : missingEnvVars env ≠ [] := by
      intro he
      rw [he] at h
      simp at h
    refine ⟨?_, fun _ => ⟨?_, ?_⟩, fun he => absurd he hne⟩ <;> simp [init, h]
  · have he : missingEnvVars env = [] := by
      cases hm : missingEnvVars env with
      | nil => rfl
      | cons a l =>
          rw [hm] at h
          simp at h
    refine ⟨?_, fun hne => absurd he hne, fun _ => ?_⟩
    · rw [he]
      cases loginOk <;> simp [init, h]
    · cases loginOk <;> simp [init, h]

/-- Witness for C5: with both variables unset, both are enumerated and the
process exits with status 1 before login; with both set, login proceeds. -/
theorem C5_env_validation_witness :
    (init (fun _ => none) true).missingDiagnostics = ["DISCORD_TOKEN", "CLIENT_ID"]
    ∧ (init (fun _ => none) true).exitStatus = some 1
    ∧ (init (fun _ => none) true).loginAttempted = false
    ∧ (init (fun _ => some "x") true).loginAttempted = true := by
  have h1 := C5_env_validation (fun _ => none) true
  have h2 := C5_env_validation (fun _ => some "x") true
  have hm1 : missingEnvVars (fun _ => none) = ["DISCORD_TOKEN", "CLIENT_ID"] := by
    decide
  have hm2 : missingEnvVars (fun _ => some "x") = [] := by decide
  refine ⟨?_, ?_, ?_, h2.2.2 hm2⟩
  · rw [h1.1, hm1]
  · exact (h1.2.1 (by rw [hm1]; simp)).1
  · exact (h1.2.1 (by rw [hm1]; simp)).2

/-- Claim C6: cooldown state is scoped per (command, caller): dispatching a
chat-input command leaves every cooldown entry other than the one for that
(command, caller) pair untouched, so no other caller is throttled for the
command and the same caller is not throttled for any other command. -/
theorem C6_cooldown_scoping (commands : List Command) (cds : Cooldowns)
    (now : Nat) (name uid utag : String) (e : Env) (c' u' : String)
    (h : ¬(c' = name ∧ u' = uid)) :
    getUser (handleInteraction commands cds now (.chatInput name uid utag) e).cooldowns c' u'
      = getUser cds c' u'
    ∧ ∀ m t, (cooldownCheck
          (handleInteraction commands cds now (.chatInput name uid utag) e).cooldowns
          c' u' m t).outcome
        = (cooldownCheck cds c' u' m t).outcome := by
  have hc : getUser (handleInteraction commands cds now
      (.chatInput name uid utag) e).cooldowns c' u' = getUser cds c' u' := by
    rw [handleInteraction_chatInput_cooldowns]
    cases hfind : findCommand commands name with
    | none => rfl
    | some cmd =>
        have hn := findCommand_name commands name cmd hfind
        exact getUser_cooldownCheck_ne cds cmd.name uid _ now c' u'
          (by rw [hn]; exact h)
  exact ⟨hc, fun m t => cooldownCheck_outcome_congr _ _ _ _ m t hc⟩

/-- Witness for C6: an invocation by one caller does not create or change the
entry of another caller for the same command. -/
theorem C6_cooldown_scoping_witness :
    getUser (handleInteraction [⟨"ping", none⟩] [] 0 (.chatInput "ping" "u1" "t")
        ⟨true, true, true, true, false, false⟩).cooldowns "ping" "u2"
      = getUser [] "ping" "u2" :=
  (C6_cooldown_scoping [⟨"ping", none⟩] [] 0 "ping" "u1" "t"
    ⟨true, true, true, true, false, false⟩ "ping" "u2" (by decide)).1

/-- Claim C7 counterexample: the unhandled-rejection handler (lines 40-43)
only logs — it schedules no flush delay and no exit at all, so an unhandled
asynchronous rejection does not force the process to terminate with non-zero
status as the claim requires of every escaping process-level fault. -/
theorem C7_counterexample :
    onUnhandledRejection.exitStatus = none
    ∧ onUnhandledRejection.exitDelayMs = none := by
  decide

/-- Claim C7 amended: an uncaught exception is logged, given a fixed 1000 ms
flush delay, and forces a status-1 exit; an unhandled asynchronous rejection
is only logged — no exit is scheduled and the process keeps running. -/
theorem C7_fault_handlers :
    0 < onUncaughtException.logLines
    ∧ onUncaughtException.exitDelayMs = some 1000
    ∧ onUncaughtException.exitStatus = some 1
    ∧ 0 < onUnhandledRejection.logLines
    ∧ onUnhandledRejection.exitDelayMs = none
    ∧ onUnhandledRejection.exitStatus = none := by
  decide

/-- Claim C8 counterexample: with a command on cooldown and a throttle reply
whose promise rejects, the rejection escapes the handler's try/catch and
surfaces at the process-level rejection handler, contrary to the claim that
every failing Router invocation is caught at the Router's boundary. -/
theorem C8_counterexample :
    (handleInteraction [⟨"ping", none⟩] [("ping", [("u1", 0)])] 1000
        (.chatInput "ping" "u1" "tag")
        ⟨false, true, true, true, false, false⟩).escapedRejection = true := by
  decide

/-- Claim C8 amended: every awaited invocation made during dispatch — the
command execute contract, the component delegate, and the catch-path error
notifications — has its failure caught at the Router's boundary; the only
escape is the ephemeral Throttled reply, which is returned without being
awaited, so a dispatch lets a rejection escape to the process-level handlers
exactly when it sent a throttle reply whose promise rejected. -/
theorem C8_boundary (commands : List Command) (cds : Cooldowns) (now : Nat)
    (i : Interaction) (e : Env) :
    (handleInteraction commands cds now i e).escapedRejection = true
      ↔ ((∃ rem, (handleInteraction commands cds now i e).userReplies
            = [UserReply.throttleWait rem])
         ∧ e.throttleReplyOk = false) := by
  cases i with
  | otherKind => simp [handleInteraction]
  | button cid =>
      by_cases hb : cid.startsWith "ticket_" = true
      · cases ht : e.ticketOk with
        | true => simp [handleInteraction, hb, ht]
        | false =>
            have hres : handleInteraction commands cds now (.button cid) e
                = catchBlock e ⟨cds, none, [], 1, [], [], false, none⟩ := by
              simp [handleInteraction, hb, ht]
            rw [hres, (catchBlock_frame e _).2.2.2.2.1, catchBlock_userReplies]
            by_cases hrd : (e.replied || e.deferred) = true <;> simp [hrd]
      · simp [handleInteraction, hb]
  | chatInput name uid utag =>
      cases hfind : findCommand commands name with
      | none =>
          rw [handleInteraction_unknown commands cds now name uid utag e hfind]
          simp
      | some cmd =>
          cases hout : (cooldownCheck cds cmd.name uid
              (effectiveCooldownMs cmd.cooldown) now).outcome with
          | throttled rem =>
              rw [handleInteraction_throttled commands cds now name uid utag e
                cmd rem hfind hout]
              cases htr : e.throttleReplyOk <;> simp
          | allowed =>
              cases hex : e.executeOk with
              | true =>
                  rw [handleInteraction_allowed_ok commands cds now name uid utag e
                    cmd hfind hout hex]
                  simp
              | false =>
                  rw [handleInteraction_allowed_fault commands cds now name uid utag e
                    cmd hfind hout hex]
                  rw [(catchBlock_frame e _).2.2.2.2.1, catchBlock_userReplies]
                  by_cases hrd : (e.replied || e.deferred) = true <;> simp [hrd]

/-- Claim C10: when the execute contract faults after the cooldown check
returned Allowed at time `now`, the entry recorded at `now` survives the
catch path, so the caller remains throttled for that command until `now`
plus the cooldown window despite the failure. -/
theorem C10_cooldown_retained_on_fault (commands : List Command) (cds : Cooldowns)
    (now : Nat) (name uid utag : String) (e : Env) (cmd : Command)
    (hfind : findCommand commands name = some cmd)
    (hout : (cooldownCheck cds cmd.name uid (effectiveCooldownMs cmd.cooldown) now).outcome
      = CooldownOutcome.allowed)
    (hex : e.executeOk = false) :
    getUser (handleInteraction commands cds now (.chatInput name uid utag) e).cooldowns
        cmd.name uid = some now
    ∧ ∀ t, t < now + effectiveCooldownMs cmd.cooldown →
        (cooldownCheck
            (handleInteraction commands cds now (.chatInput name uid utag) e).cooldowns
            cmd.name uid (effectiveCooldownMs cmd.cooldown) t).outcome
          = CooldownOutcome.throttled (now + effectiveCooldownMs cmd.cooldown - t) := by
  have hcool : (handleInteraction commands cds now
      (.chatInput name uid utag) e).cooldowns
      = (cooldownCheck cds cmd.name uid (effectiveCooldownMs cmd.cooldown) now).cooldowns := by
    rw [handleInteraction_allowed_fault commands cds now name uid utag e cmd hfind hout hex]
    exact (catchBlock_frame e _).1
  have hget : getUser (handleInteraction commands cds now
      (.chatInput name uid utag) e).cooldowns cmd.name uid = some now := by
    rw [hcool]
    exact getUser_cooldownCheck_allowed cds cmd.name uid _ now hout
  refine ⟨hget, fun t ht => ?_⟩
  rw [cooldownCheck_eq]
  simp [hget, ht]

/-- Witness for C10: after a faulting execution at time 0 the caller is still
on cooldown at time 1000. -/
theorem C10_cooldown_retained_on_fault_witness :
    getUser (handleInteraction [⟨"ping", none⟩] [] 0 (.chatInput "ping" "u1" "t")
        ⟨true, false, true, true, false, false⟩).cooldowns "ping" "u1" = some 0
    ∧ (cooldownCheck
        (handleInteraction [⟨"ping", none⟩] [] 0 (.chatInput "ping" "u1" "t")
          ⟨true, false, true, true, false, false⟩).cooldowns
        "ping" "u1" (effectiveCooldownMs none) 1000).outcome
      = CooldownOutcome.throttled 2000 := by
  have h := C10_cooldown_retained_on_fault [⟨"ping", none⟩] [] 0 "ping" "u1" "t"
    ⟨true, false, true, true, false, false⟩ ⟨"ping", none⟩
    (by decide) (by decide) rfl
  refine ⟨h.1, ?_⟩
  have h2 := h.2 1000 (by decide)
  simpa using h2

end Bot
